import Mathlib

/-!
Shallow embedding of the istio CNI `dependencies` package execution core
(`execute`, `runInSandbox`, `setupSandbox`, `executeXTables` and the
version-gate thresholds), with theorems checking the specification's
claims about it.

Conventions of the embedding:
* A Go `error` value is `Option String` (`none` = nil / success).
* Each fallible syscall of the sandbox setup is given its outcome as an
  input (`SandboxSteps`), so the control flow of `runInSandbox` can be
  traced deterministically.
* The subprocess run (`c.Run()`) is described by an `ExecOutcome` input:
  the raw error it would return plus its captured stdout/stderr.
* Functions of the repository that are not part of the provided source
  (the `NoLocks` version-gate method, the `XTablesWriteCmds` set, the
  stderr translator) are modelled from the spec or taken as parameters,
  as noted on each definition.
-/

namespace IstioDeps

/-- Parsed generic tool version (major.minor.patch), as produced by
`utilversion.MustParseGeneric`. -/
structure Version where
  major : Nat
  minor : Nat
  patch : Nat
deriving DecidableEq, Repr

/-- The `LessThan` comparison of the parsed generic version type:
lexicographic comparison of major, minor, patch components. -/
def Version.lessThan (a b : Version) : Bool :=
  if a.major < b.major then true
  else if b.major < a.major then false
  else if a.minor < b.minor then true
  else if b.minor < a.minor then false
  else decide (a.patch < b.patch)

/-- The strict order on versions, stated as a proposition (used to phrase
claims about version thresholds independently of `Version.lessThan`). -/
def Version.lt (a b : Version) : Prop :=
  a.major < b.major ∨
    (a.major = b.major ∧
      (a.minor < b.minor ∨ (a.minor = b.minor ∧ a.patch < b.patch)))

instance (a b : Version) : Decidable (Version.lt a b) := by
  unfold Version.lt
  infer_instance

/-- IptablesRestoreLocking is the version where locking and -w is added to
iptables-restore ("1.6.2"). -/
def IptablesRestoreLocking : Version := ⟨1, 6, 2⟩

/-- IptablesLockfileEnv is the version where XTABLES_LOCKFILE is added to
iptables ("1.8.6"). -/
def IptablesLockfileEnv : Version := ⟨1, 8, 6⟩

/-- The resolved iptables tool version carried by `RealDependencies`
(field `version` mirrors the Go struct's parsed version). -/
structure IptablesVersion where
  version : Version
deriving DecidableEq, Repr

/-- Modelled from the spec: the `NoLocks` method of the Version Gate is not
in the provided source (only its threshold constant and call sites are).
The spec defines it as: true when the version predates the introduction of
the `--wait`/locking flag, threshold "1.6.2" (`IptablesRestoreLocking`). -/
def IptablesVersion.NoLocks (v : IptablesVersion) : Bool :=
  v.version.lessThan IptablesRestoreLocking

theorem lessThan_iff_lt (a b : Version) :
    a.lessThan b = true ↔ Version.lt a b := by
  rcases a with ⟨am, ai, ap⟩
  rcases b with ⟨bm, bi, bp⟩
  unfold Version.lessThan Version.lt
  repeat' split
  all_goals try simp_all
  all_goals omega

theorem noLocks_iff (v : IptablesVersion) :
    v.NoLocks = true ↔ Version.lt v.version IptablesRestoreLocking := by
  unfold IptablesVersion.NoLocks
  exact lessThan_iff_lt v.version IptablesRestoreLocking

/-- The outcome of one fallible setup syscall: `none` = success,
`some e` = failure with error text `e`. -/
abbrev StepResult := Option String

/-- The outcomes of the fallible syscalls performed while building the
sandbox, in the order `runInSandbox` / `setupSandbox` perform them:
network-namespace capture (`netns.GetCurrentNS`), `unix.Unshare`,
network-namespace re-entry (`n.Set`), the private remount of `/`
(`unix.Mount`), the lock-file bind mount and the nsswitch bind mount. -/
structure SandboxSteps where
  getNS : StepResult
  unshare : StepResult
  setNS : StepResult
  remountRoot : StepResult
  mountLock : StepResult
  mountNss : StepResult
deriving DecidableEq, Repr

/-- Result of `setupSandbox`: its error (or `none`), together with the
bind mounts it attempted, as (source, destination) pairs. -/
structure SetupOutcome where
  err : Option String
  mounts : List (String × String)
deriving DecidableEq, Repr

/-- The `setupSandbox` closure of `runInSandbox`: unshare the mount
namespace, re-enter the captured network namespace, remount `/` private,
bind-mount the lock-file override over `/run/xtables.lock` when one was
supplied, and bind-mount `/dev/null` over `/etc/nsswitch.conf`. Each step
runs only if all previous ones succeeded. -/
def setupSandbox (lockFile : String) (s : SandboxSteps) : SetupOutcome :=
  match s.unshare with
  | some e => ⟨some ("failed to unshare to new mount namespace: " ++ e), []⟩
  | none =>
  match s.setNS with
  | some e => ⟨some ("failed to reset network namespace: " ++ e), []⟩
  | none =>
  match s.remountRoot with
  | some e => ⟨some ("failed to remount /: " ++ e), []⟩
  | none =>
  if lockFile = "" then
    match s.mountNss with
    | some e =>
        ⟨some ("bind mount to \"/etc/nsswitch.conf\" failed: " ++ e),
          [("/dev/null", "/etc/nsswitch.conf")]⟩
    | none => ⟨none, [("/dev/null", "/etc/nsswitch.conf")]⟩
  else
    match s.mountLock with
    | some e =>
        ⟨some ("bind mount of \"" ++ lockFile ++ "\" failed: " ++ e),
          [(lockFile, "/run/xtables.lock")]⟩
    | none =>
      match s.mountNss with
      | some e =>
          ⟨some ("bind mount to \"/etc/nsswitch.conf\" failed: " ++ e),
            [(lockFile, "/run/xtables.lock"),
              ("/dev/null", "/etc/nsswitch.conf")]⟩
      | none =>
          ⟨none, [(lockFile, "/run/xtables.lock"),
            ("/dev/null", "/etc/nsswitch.conf")]⟩

/-- The value `runInSandbox` hands back to its caller, plus bookkeeping
the theorems observe: how many times the operation `f` was invoked, and
whether the best-effort unsandboxed fallback path (which logs a warning)
was taken. -/
structure SandboxResult where
  result : Option String
  fCalls : Nat
  fallback : Bool
  mounts : List (String × String)
deriving DecidableEq, Repr

/-- `runInSandbox lockFile steps fres`: the Go function, with the syscall
outcomes given by `steps` and the operation `f` modelled as returning
`fres` on every invocation. If capturing the current network namespace
fails, the error is returned and `f` never runs. Otherwise setup runs on
the dedicated thread: on setup failure `executed` is still false, so the
fallback invokes `f` directly; on setup success `f` runs in the sandbox
and its result is returned verbatim. -/
def runInSandbox (lockFile : String) (steps : SandboxSteps)
    (fres : Option String) : SandboxResult :=
  match steps.getNS with
  | some e => ⟨some ("failed to get current namespace: " ++ e), 0, false, []⟩
  | none =>
    let setup := setupSandbox lockFile steps
    match setup.err with
    | some _ => ⟨fres, 1, true, setup.mounts⟩
    | none => ⟨fres, 1, false, setup.mounts⟩

/-- The ambient viper configuration: `AllKeys` in iteration order, each
paired with the value `viper.Get` returns for it, stringified through
`%v`; `none` models a Go `nil` value. -/
abbrev Config := List (String × Option String)

/-- `strings.NewReplacer("-", "_").Replace`: every hyphen becomes an
underscore; no other character is touched. -/
def replaceDash (s : String) : String :=
  ⟨s.data.map fun c => if c = '-' then '_' else c⟩

/-- `strings.ToUpper` restricted to the ASCII letters that occur in
configuration keys. -/
def toUpperAscii (s : String) : String :=
  ⟨s.data.map Char.toUpper⟩

/-- The environment entry `execute` builds for one configuration pair:
`fmt.Sprintf("%s=%v", strings.ToUpper(repl.Replace(k)), v)`. -/
def mkEnvVar (k v : String) : String :=
  toUpperAscii (replaceDash k) ++ "=" ++ v

/-- The environment-variable list `execute` appends to the child process:
one entry per configuration key whose value is non-nil, in key order;
keys with a nil value are skipped. -/
def envVars (config : Config) : List String :=
  match config with
  | [] => []
  | (_, none) :: rest => envVars rest
  | (k, some v) :: rest => mkEnvVar k v :: envVars rest

/-- What one `c.Run()` of the external command would produce: its raw
error (`none` = exit success) and the captured output streams. -/
structure ExecOutcome where
  runErr : Option String
  stdout : String
  stderr : String
deriving DecidableEq, Repr

/-- Observable outcome of `RealDependencies.execute`: the child process
environment it set, the error it returns, and whether stderr was logged. -/
structure ExecuteResult where
  env : List String
  err : Option String
  loggedStderr : Bool
deriving DecidableEq, Repr

/-- `RealDependencies.execute`: runs the command with the viper
configuration injected as environment variables, returns the raw run
error, and logs stderr only when `ignoreErrors` is false and stderr is
non-empty. -/
def execute (config : Config) (ignoreErrors : Bool)
    (out : ExecOutcome) : ExecuteResult :=
  { env := envVars config
    err := out.runErr
    loggedStderr := !ignoreErrors && out.stderr != "" }

/-- The fields of the Go `RealDependencies` receiver that
`executeXTables` reads. -/
structure RealDependencies where
  CNIMode : Bool
  NetworkNamespace : String
  IptablesVersion : IptablesVersion
deriving DecidableEq, Repr

/-- Observable outcome of `executeXTables`: the argument list the command
was finally launched with, the environment explicitly set on the command,
the lock-file override passed to the sandbox (`""` = none), the logged
mode string, whether the run went through `runInSandbox`, the bind mounts
the sandbox attempted, the error returned to the caller, how many times
the command body ran, and the error text logged (`none` = nothing
logged). -/
structure XTablesResult where
  finalArgs : List String
  env : List String
  lockFile : String
  mode : String
  sandboxed : Bool
  mounts : List (String × String)
  err : Option String
  fCalls : Nat
  loggedError : Option String
deriving DecidableEq, Repr

/-- The logging tail of `executeXTables`: when the run failed or stderr
is non-empty, and `ignoreErrors` is false, log stderr — first rewritten
by `transformToXTablesErrorMessage` when there was an error. The
translator itself is not part of the provided source, so it is taken as
the parameter `transform` (stderr text and error text to logged text). -/
def xtablesLog (ignoreErrors : Bool) (stderr : String) (err : Option String)
    (transform : String → String → String) : Option String :=
  if (err.isSome || stderr != "") && !ignoreErrors then
    some (match err with
          | some e => transform stderr e
          | none => stderr)
  else none

/-- `RealDependencies.executeXTables`. `writeCmds` stands for the
`XTablesWriteCmds` set, which is not part of the provided source; it is
taken as a parameter (the fixed set of mutating command names), and
membership of `cmd` in it is `isWriteCommand`. `steps` describes the
sandbox syscall outcomes (used only on the CNI path) and `out` describes
what running the built command would produce. -/
def executeXTables (writeCmds : List String) (r : RealDependencies)
    (cmd : String) (ignoreErrors : Bool) (args : List String)
    (steps : SandboxSteps) (out : ExecOutcome)
    (transform : String → String → String) : XTablesResult :=
  let isWriteCommand := writeCmds.contains cmd
  let needLock := isWriteCommand && !r.IptablesVersion.NoLocks
  if r.CNIMode then
    let cfg :=
      if needLock then
        if r.IptablesVersion.version.lessThan IptablesLockfileEnv then
          ("without lock by mount and nss", r.NetworkNamespace,
            ([] : List String))
        else
          ("without lock by env and nss", "",
            ["XTABLES_LOCKFILE=" ++ r.NetworkNamespace])
      else ("without nss", "", [])
    let sb := runInSandbox cfg.2.1 steps out.runErr
    { finalArgs := args
      env := cfg.2.2
      lockFile := cfg.2.1
      mode := cfg.1
      sandboxed := true
      mounts := sb.mounts
      err := sb.result
      fCalls := sb.fCalls
      loggedError := xtablesLog ignoreErrors out.stderr sb.result transform }
  else
    let hostCfg :=
      if needLock then ("with wait lock", args ++ ["--wait=30"])
      else ("without lock", args)
    { finalArgs := hostCfg.2
      env := []
      lockFile := ""
      mode := hostCfg.1
      sandboxed := false
      mounts := []
      err := out.runErr
      fCalls := 1
      loggedError := xtablesLog ignoreErrors out.stderr out.runErr transform }

/-- When the lock-file override is non-empty and the steps before it
succeed, `setupSandbox` attempts the read-only bind mount of the override
over `/run/xtables.lock` (supporting fact relating the `lockFile` field
to the mount request). -/
theorem setupSandbox_lock_mount_attempted (lockFile : String)
    (s : SandboxSteps) (hl : lockFile ≠ "") (hu : s.unshare = none)
    (hn : s.setNS = none) (hr : s.remountRoot = none) :
    (lockFile, "/run/xtables.lock") ∈ (setupSandbox lockFile s).mounts := by
  unfold setupSandbox
  rw [hu, hn, hr, if_neg hl]
  cases s.mountLock with
  | some e => simp
  | none => cases s.mountNss with
    | some e => simp
    | none => simp

/-- C1: if the namespace-unshare setup step inside `runInSandbox` fails,
the operation `f` is still invoked exactly once, via the unsandboxed
fallback path, and the value returned is exactly the result of that
invocation of `f` — whatever success or injected error it is. -/
theorem runInSandbox_unshare_failure_runs_f_once (lockFile : String)
    (steps : SandboxSteps) (fres : Option String) (e : String)
    (hns : steps.getNS = none) (hu : steps.unshare = some e) :
    (runInSandbox lockFile steps fres).result = fres ∧
    (runInSandbox lockFile steps fres).fCalls = 1 ∧
    (runInSandbox lockFile steps fres).fallback = true := by
  simp [runInSandbox, setupSandbox, hns, hu]

theorem runInSandbox_unshare_failure_runs_f_once_witness :
    (runInSandbox "" ⟨none, some "denied", none, none, none, none⟩
        (some "oops")).result = some "oops" ∧
    (runInSandbox "" ⟨none, some "denied", none, none, none, none⟩
        (some "oops")).fCalls = 1 ∧
    (runInSandbox "" ⟨none, some "denied", none, none, none, none⟩
        (some "oops")).fallback = true :=
  runInSandbox_unshare_failure_runs_f_once ""
    ⟨none, some "denied", none, none, none, none⟩ (some "oops") "denied"
    rfl rfl

/-- C2: when every sandbox setup step succeeds and the operation `f`
returns an error, `runInSandbox` returns that exact error, `f` runs only
once, and the fallback path is not taken. -/
theorem runInSandbox_inner_error_preserved (lockFile : String)
    (steps : SandboxSteps) (e : String) (hns : steps.getNS = none)
    (hsetup : (setupSandbox lockFile steps).err = none) :
    (runInSandbox lockFile steps (some e)).result = some e ∧
    (runInSandbox lockFile steps (some e)).fCalls = 1 ∧
    (runInSandbox lockFile steps (some e)).fallback = false := by
  simp [runInSandbox, hns, hsetup]

theorem runInSandbox_inner_error_preserved_witness :
    (runInSandbox "" ⟨none, none, none, none, none, none⟩
        (some "exit status 1")).result = some "exit status 1" ∧
    (runInSandbox "" ⟨none, none, none, none, none, none⟩
        (some "exit status 1")).fCalls = 1 ∧
    (runInSandbox "" ⟨none, none, none, none, none, none⟩
        (some "exit status 1")).fallback = false :=
  runInSandbox_inner_error_preserved ""
    ⟨none, none, none, none, none, none⟩ "exit status 1" rfl rfl

/-- C3 counterexample: the claim includes capturing the current network
namespace among the setup steps whose failure triggers the unsandboxed
fallback, but when `netns.GetCurrentNS` fails `runInSandbox` returns a
namespace-capture error immediately: the operation is invoked zero times
and no fallback runs. -/
theorem runInSandbox_nsCapture_failure_no_fallback :
    (runInSandbox "" ⟨some "eperm", none, none, none, none, none⟩
        none).fCalls = 0 ∧
    (runInSandbox "" ⟨some "eperm", none, none, none, none, none⟩
        none).fallback = false ∧
    (runInSandbox "" ⟨some "eperm", none, none, none, none, none⟩
        none).result = some "failed to get current namespace: eperm" :=
  ⟨rfl, rfl, rfl⟩

/-- C3 (amended): for every setup step performed inside the
`setupSandbox` closure — unshare, network-namespace re-entry, the root
remount, and either bind mount — failure before the operation has been
invoked triggers the warning-logging fallback: the operation runs exactly
once, directly and unsandboxed, and its result is returned. (Failure of
the earlier namespace-capture step instead returns an error without
running the operation.) -/
theorem runInSandbox_setup_failure_fallback (lockFile : String)
    (steps : SandboxSteps) (fres : Option String) (e : String)
    (hns : steps.getNS = none)
    (hsetup : (setupSandbox lockFile steps).err = some e) :
    (runInSandbox lockFile steps fres).result = fres ∧
    (runInSandbox lockFile steps fres).fCalls = 1 ∧
    (runInSandbox lockFile steps fres).fallback = true := by
  simp [runInSandbox, hns, hsetup]

theorem runInSandbox_setup_failure_fallback_witness :
    (runInSandbox "" ⟨none, none, none, some "busy", none, none⟩
        none).result = none ∧
    (runInSandbox "" ⟨none, none, none, some "busy", none, none⟩
        none).fCalls = 1 ∧
    (runInSandbox "" ⟨none, none, none, some "busy", none, none⟩
        none).fallback = true :=
  runInSandbox_setup_failure_fallback ""
    ⟨none, none, none, some "busy", none, none⟩ none
    "failed to remount /: busy" rfl rfl

/-- C4: in CNI mode, for a write command that needs a lock, the lock
strategy is selected by the `IptablesLockfileEnv` ("1.8.6") threshold:
at or above it, the child environment is the lock-file variable
`XTABLES_LOCKFILE` set to the pod network-namespace identifier and no
lock-file bind mount is requested (empty override); below it, the
lock-file override passed to the sandbox is the pod network-namespace
identifier (bind-mounted over `/run/xtables.lock`) and no environment
variable is set. -/
theorem executeXTables_cni_lock_strategy (writeCmds : List String)
    (r : RealDependencies) (cmd : String) (ignoreErrors : Bool)
    (args : List String) (steps : SandboxSteps) (out : ExecOutcome)
    (transform : String → String → String) (hcni : r.CNIMode = true)
    (hw : writeCmds.contains cmd = true)
    (hlock : r.IptablesVersion.NoLocks = false) :
    (¬ Version.lt r.IptablesVersion.version IptablesLockfileEnv →
      (executeXTables writeCmds r cmd ignoreErrors args steps out
          transform).env = ["XTABLES_LOCKFILE=" ++ r.NetworkNamespace] ∧
      (executeXTables writeCmds r cmd ignoreErrors args steps out
          transform).lockFile = "") ∧
    (Version.lt r.IptablesVersion.version IptablesLockfileEnv →
      (executeXTables writeCmds r cmd ignoreErrors args steps out
          transform).lockFile = r.NetworkNamespace ∧
      (executeXTables writeCmds r cmd ignoreErrors args steps out
          transform).env = []) := by
  have hlt := lessThan_iff_lt r.IptablesVersion.version IptablesLockfileEnv
  have hw' : cmd ∈ writeCmds := by simpa using hw
  constructor
  · intro hge
    have hfalse :
        r.IptablesVersion.version.lessThan IptablesLockfileEnv = false := by
      cases hb : r.IptablesVersion.version.lessThan IptablesLockfileEnv with
      | false => rfl
      | true => exact absurd (hlt.mp hb) hge
    simp [executeXTables, hcni, hw', hlock, hfalse]
  · intro hbelow
    have htrue :
        r.IptablesVersion.version.lessThan IptablesLockfileEnv = true :=
      hlt.mpr hbelow
    simp [executeXTables, hcni, hw', hlock, htrue]

theorem executeXTables_cni_lock_strategy_witness :
    ((executeXTables ["iptables"] ⟨true, "/ns/p", ⟨⟨1, 8, 6⟩⟩⟩ "iptables"
        false [] ⟨none, none, none, none, none, none⟩ ⟨none, "", ""⟩
        (fun s _ => s)).env = ["XTABLES_LOCKFILE=/ns/p"] ∧
      (executeXTables ["iptables"] ⟨true, "/ns/p", ⟨⟨1, 8, 6⟩⟩⟩ "iptables"
        false [] ⟨none, none, none, none, none, none⟩ ⟨none, "", ""⟩
        (fun s _ => s)).lockFile = "") ∧
    ((executeXTables ["iptables"] ⟨true, "/ns/p", ⟨⟨1, 8, 5⟩⟩⟩ "iptables"
        false [] ⟨none, none, none, none, none, none⟩ ⟨none, "", ""⟩
        (fun s _ => s)).lockFile = "/ns/p" ∧
      (executeXTables ["iptables"] ⟨true, "/ns/p", ⟨⟨1, 8, 5⟩⟩⟩ "iptables"
        false [] ⟨none, none, none, none, none, none⟩ ⟨none, "", ""⟩
        (fun s _ => s)).env = []) :=
  ⟨(executeXTables_cni_lock_strategy ["iptables"] ⟨true, "/ns/p", ⟨⟨1, 8, 6⟩⟩⟩
      "iptables" false [] ⟨none, none, none, none, none, none⟩ ⟨none, "", ""⟩
      (fun s _ => s) rfl (by decide) (by decide)).1 (by decide),
   (executeXTables_cni_lock_strategy ["iptables"] ⟨true, "/ns/p", ⟨⟨1, 8, 5⟩⟩⟩
      "iptables" false [] ⟨none, none, none, none, none, none⟩ ⟨none, "", ""⟩
      (fun s _ => s) rfl (by decide) (by decide)).2 (by decide)⟩

/-- C5: in host (non-CNI) mode, for a write command: at or above the
`IptablesRestoreLocking` ("1.6.2") threshold the executed argument list
is the caller's arguments with `--wait=30` appended; below it the
arguments are passed unmodified. -/
theorem executeXTables_host_wait_flag (writeCmds : List String)
    (r : RealDependencies) (cmd : String) (ignoreErrors : Bool)
    (args : List String) (steps : SandboxSteps) (out : ExecOutcome)
    (transform : String → String → String) (hcni : r.CNIMode = false)
    (hw : writeCmds.contains cmd = true) :
    (¬ Version.lt r.IptablesVersion.version IptablesRestoreLocking →
      (executeXTables writeCmds r cmd ignoreErrors args steps out
          transform).finalArgs = args ++ ["--wait=30"]) ∧
    (Version.lt r.IptablesVersion.version IptablesRestoreLocking →
      (executeXTables writeCmds r cmd ignoreErrors args steps out
          transform).finalArgs = args) := by
  have hiff := noLocks_iff r.IptablesVersion
  have hw' : cmd ∈ writeCmds := by simpa using hw
  constructor
  · intro hge
    have hfalse : r.IptablesVersion.NoLocks = false := by
      cases hb : r.IptablesVersion.NoLocks with
      | false => rfl
      | true => exact absurd (hiff.mp hb) hge
    simp [executeXTables, hcni, hw', hfalse]
  · intro hbelow
    have htrue : r.IptablesVersion.NoLocks = true := hiff.mpr hbelow
    simp [executeXTables, hcni, hw', htrue]

theorem executeXTables_host_wait_flag_witness :
    (executeXTables ["iptables"] ⟨false, "", ⟨⟨1, 6, 2⟩⟩⟩ "iptables" false
        ["-A"] ⟨none, none, none, none, none, none⟩ ⟨none, "", ""⟩
        (fun s _ => s)).finalArgs = ["-A", "--wait=30"] ∧
    (executeXTables ["iptables"] ⟨false, "", ⟨⟨1, 6, 1⟩⟩⟩ "iptables" false
        ["-A"] ⟨none, none, none, none, none, none⟩ ⟨none, "", ""⟩
        (fun s _ => s)).finalArgs = ["-A"] :=
  ⟨(executeXTables_host_wait_flag ["iptables"] ⟨false, "", ⟨⟨1, 6, 2⟩⟩⟩
      "iptables" false ["-A"] ⟨none, none, none, none, none, none⟩
      ⟨none, "", ""⟩ (fun s _ => s) rfl (by decide)).1 (by decide),
   (executeXTables_host_wait_flag ["iptables"] ⟨false, "", ⟨⟨1, 6, 1⟩⟩⟩
      "iptables" false ["-A"] ⟨none, none, none, none, none, none⟩
      ⟨none, "", ""⟩ (fun s _ => s) rfl (by decide)).2 (by decide)⟩

/-- C6: `NoLocks` is true exactly for versions strictly below the
locking threshold "1.6.2" (`IptablesRestoreLocking`), and false for
every version greater than or equal to it. -/
theorem NoLocks_iff_below_locking_threshold (v : IptablesVersion) :
    (v.NoLocks = true ↔ Version.lt v.version IptablesRestoreLocking) ∧
    (v.NoLocks = false ↔
      ¬ Version.lt v.version IptablesRestoreLocking) := by
  have hiff := noLocks_iff v
  refine ⟨hiff, ?_, ?_⟩
  · intro h hc
    rw [hiff.mpr hc] at h
    simp at h
  · intro hc
    cases hb : v.NoLocks with
    | false => rfl
    | true => exact absurd (hiff.mp hb) hc

/-- C7: for a command name outside the write-command set,
`executeXTables` never triggers lock logic, whatever the version and
mode: the arguments are unmodified (no `--wait` flag), no lock-file
override is passed to the sandbox, no environment variable is set, and
the mode chosen is a no-lock mode. -/
theorem executeXTables_readonly_no_lock_logic (writeCmds : List String)
    (r : RealDependencies) (cmd : String) (ignoreErrors : Bool)
    (args : List String) (steps : SandboxSteps) (out : ExecOutcome)
    (transform : String → String → String)
    (hw : writeCmds.contains cmd = false) :
    (executeXTables writeCmds r cmd ignoreErrors args steps out
        transform).finalArgs = args ∧
    (executeXTables writeCmds r cmd ignoreErrors args steps out
        transform).lockFile = "" ∧
    (executeXTables writeCmds r cmd ignoreErrors args steps out
        transform).env = [] ∧
    ((executeXTables writeCmds r cmd ignoreErrors args steps out
        transform).mode = "without nss" ∨
      (executeXTables writeCmds r cmd ignoreErrors args steps out
        transform).mode = "without lock") := by
  have hw' : cmd ∉ writeCmds := by simpa using hw
  cases hc : r.CNIMode <;> simp [executeXTables, hw', hc]

theorem executeXTables_readonly_no_lock_logic_witness :
    (executeXTables ["iptables"] ⟨true, "/ns/p", ⟨⟨1, 9, 0⟩⟩⟩
        "iptables-save" false ["-t", "nat"]
        ⟨none, none, none, none, none, none⟩ ⟨none, "", ""⟩
        (fun s _ => s)).finalArgs = ["-t", "nat"] ∧
    (executeXTables ["iptables"] ⟨true, "/ns/p", ⟨⟨1, 9, 0⟩⟩⟩
        "iptables-save" false ["-t", "nat"]
        ⟨none, none, none, none, none, none⟩ ⟨none, "", ""⟩
        (fun s _ => s)).lockFile = "" ∧
    (executeXTables ["iptables"] ⟨true, "/ns/p", ⟨⟨1, 9, 0⟩⟩⟩
        "iptables-save" false ["-t", "nat"]
        ⟨none, none, none, none, none, none⟩ ⟨none, "", ""⟩
        (fun s _ => s)).env = [] ∧
    ((executeXTables ["iptables"] ⟨true, "/ns/p", ⟨⟨1, 9, 0⟩⟩⟩
        "iptables-save" false ["-t", "nat"]
        ⟨none, none, none, none, none, none⟩ ⟨none, "", ""⟩
        (fun s _ => s)).mode = "without nss" ∨
      (executeXTables ["iptables"] ⟨true, "/ns/p", ⟨⟨1, 9, 0⟩⟩⟩
        "iptables-save" false ["-t", "nat"]
        ⟨none, none, none, none, none, none⟩ ⟨none, "", ""⟩
        (fun s _ => s)).mode = "without lock") :=
  executeXTables_readonly_no_lock_logic ["iptables"]
    ⟨true, "/ns/p", ⟨⟨1, 9, 0⟩⟩⟩ "iptables-save" false ["-t", "nat"]
    ⟨none, none, none, none, none, none⟩ ⟨none, "", ""⟩ (fun s _ => s)
    (by decide)

/-- As long as capturing the current network namespace succeeds, the
value `runInSandbox` returns is the operation's own result, whether setup
succeeded (sandboxed run) or failed (fallback run). -/
theorem runInSandbox_result_of_getNS_ok (lockFile : String)
    (steps : SandboxSteps) (fres : Option String)
    (h : steps.getNS = none) :
    (runInSandbox lockFile steps fres).result = fres := by
  unfold runInSandbox
  rw [h]
  cases h2 : (setupSandbox lockFile steps).err <;> simp [h2]

/-- C8: the `ignoreErrors` flag and the stderr translator only affect
what is logged, never what is returned: the error `executeXTables`
returns is identical for any two values of `ignoreErrors` and any two
translators; in host mode it is exactly the raw run error, and in CNI
mode (whenever namespace capture succeeds, so the command body actually
runs) it is also exactly the raw run error, never the translated text;
with `ignoreErrors` set, nothing is logged at all. -/
theorem executeXTables_error_untranslated (writeCmds : List String)
    (r : RealDependencies) (cmd : String) (args : List String)
    (steps : SandboxSteps) (out : ExecOutcome)
    (t1 t2 : String → String → String) (i1 i2 : Bool) :
    (executeXTables writeCmds r cmd i1 args steps out t1).err =
      (executeXTables writeCmds r cmd i2 args steps out t2).err ∧
    (r.CNIMode = false →
      (executeXTables writeCmds r cmd i1 args steps out t1).err =
        out.runErr) ∧
    (r.CNIMode = true → steps.getNS = none →
      (executeXTables writeCmds r cmd i1 args steps out t1).err =
        out.runErr) ∧
    (i1 = true →
      (executeXTables writeCmds r cmd i1 args steps out t1).loggedError =
        none) := by
  refine ⟨?_, ?_, ?_, ?_⟩
  · cases hc : r.CNIMode <;> simp [executeXTables, hc]
  · intro hc
    simp [executeXTables, hc]
  · intro hc hns
    simp [executeXTables, hc,
      runInSandbox_result_of_getNS_ok _ steps out.runErr hns]
  · intro hi
    subst hi
    cases hc : r.CNIMode <;> simp [executeXTables, hc, xtablesLog]

theorem executeXTables_error_untranslated_witness :
    (executeXTables ["iptables"] ⟨true, "/ns/p", ⟨⟨1, 8, 0⟩⟩⟩ "iptables"
        true ["-A"] ⟨none, none, none, none, none, none⟩
        ⟨some "exit status 1", "", "boom"⟩ (fun s e => s ++ e)).err =
      (executeXTables ["iptables"] ⟨true, "/ns/p", ⟨⟨1, 8, 0⟩⟩⟩ "iptables"
        false ["-A"] ⟨none, none, none, none, none, none⟩
        ⟨some "exit status 1", "", "boom"⟩ (fun _ _ => "other")).err ∧
    (executeXTables ["iptables"] ⟨true, "/ns/p", ⟨⟨1, 8, 0⟩⟩⟩ "iptables"
        true ["-A"] ⟨none, none, none, none, none, none⟩
        ⟨some "exit status 1", "", "boom"⟩ (fun s e => s ++ e)).err =
      some "exit status 1" ∧
    (executeXTables ["iptables"] ⟨true, "/ns/p", ⟨⟨1, 8, 0⟩⟩⟩ "iptables"
        true ["-A"] ⟨none, none, none, none, none, none⟩
        ⟨some "exit status 1", "", "boom"⟩
        (fun s e => s ++ e)).loggedError = none :=
  ⟨(executeXTables_error_untranslated ["iptables"]
      ⟨true, "/ns/p", ⟨⟨1, 8, 0⟩⟩⟩ "iptables" ["-A"]
      ⟨none, none, none, none, none, none⟩
      ⟨some "exit status 1", "", "boom"⟩ (fun s e => s ++ e)
      (fun _ _ => "other") true false).1,
   (executeXTables_error_untranslated ["iptables"]
      ⟨true, "/ns/p", ⟨⟨1, 8, 0⟩⟩⟩ "iptables" ["-A"]
      ⟨none, none, none, none, none, none⟩
      ⟨some "exit status 1", "", "boom"⟩ (fun s e => s ++ e)
      (fun _ _ => "other") true false).2.2.1 rfl rfl,
   (executeXTables_error_untranslated ["iptables"]
      ⟨true, "/ns/p", ⟨⟨1, 8, 0⟩⟩⟩ "iptables" ["-A"]
      ⟨none, none, none, none, none, none⟩
      ⟨some "exit status 1", "", "boom"⟩ (fun s e => s ++ e)
      (fun _ _ => "other") true false).2.2.2 rfl⟩

/-- C9 counterexample: the claim says every non-alphanumeric separator
in a key is normalized to an underscore and every pair with an absent or
empty value is skipped, but for the configuration pair `("a.b", "")`
(present key, empty-string value) `execute` injects `"A.B="`: the dot is
not normalized (only hyphens are) and the empty value is not skipped
(only nil values are). -/
theorem execute_env_counterexample :
    (execute [("a.b", some "")] false ⟨none, "", ""⟩).env = ["A.B="] ∧
    ("A.B=" : String) ≠ "A_B=" ∧
    (["A.B="] : List String) ≠ ([] : List String) := by
  refine ⟨?_, by decide, by decide⟩
  decide

/-- C9 (amended): `execute` injects one environment variable per
configuration pair whose value is present (non-nil), in key order, with
the key's hyphens — the only separator the code normalizes — replaced by
underscores and the key upper-cased, followed by `=` and the stringified
value; pairs whose value is absent (nil) are skipped, while pairs with an
empty string value are injected with an empty right-hand side. -/
theorem execute_env_injection (config : Config) (ignoreErrors : Bool)
    (out : ExecOutcome) :
    (execute config ignoreErrors out).env =
      config.filterMap fun p =>
        p.2.map fun v =>
          String.mk ((p.1.data.map fun c => if c = '-' then '_' else c).map
            Char.toUpper) ++ "=" ++ v := by
  simp only [execute]
  induction config with
  | nil => rfl
  | cons p rest ih =>
    rcases p with ⟨k, v⟩
    cases v with
    | none => simpa [envVars] using ih
    | some s => simpa [envVars, mkEnvVar, toUpperAscii, replaceDash] using ih

/-- C10: in CNI mode `executeXTables` never injects the ambient viper
configuration into the child environment (that injection lives only in
`execute`): the environment it explicitly sets is exactly the single
variable `XTABLES_LOCKFILE=<pod network namespace>` when the
lockfile-env strategy is chosen (write command, lock needed, version at
or above `IptablesLockfileEnv`), and is left empty in every other CNI
sub-mode. -/
theorem executeXTables_cni_env_exact (writeCmds : List String)
    (r : RealDependencies) (cmd : String) (ignoreErrors : Bool)
    (args : List String) (steps : SandboxSteps) (out : ExecOutcome)
    (transform : String → String → String) (hcni : r.CNIMode = true) :
    (executeXTables writeCmds r cmd ignoreErrors args steps out
        transform).env =
      (if writeCmds.contains cmd && !r.IptablesVersion.NoLocks &&
          !(r.IptablesVersion.version.lessThan IptablesLockfileEnv)
        then ["XTABLES_LOCKFILE=" ++ r.NetworkNamespace]
        else []) := by
  cases hb1 : writeCmds.contains cmd
  · have hm : cmd ∉ writeCmds := by simpa using hb1
    cases hb2 : r.IptablesVersion.NoLocks <;>
      cases hb3 : r.IptablesVersion.version.lessThan IptablesLockfileEnv <;>
        simp [executeXTables, hcni, hm, hb1, hb2, hb3]
  · have hm : cmd ∈ writeCmds := by simpa using hb1
    cases hb2 : r.IptablesVersion.NoLocks <;>
      cases hb3 : r.IptablesVersion.version.lessThan IptablesLockfileEnv <;>
        simp [executeXTables, hcni, hm, hb1, hb2, hb3]

theorem executeXTables_cni_env_exact_witness :
    (executeXTables ["iptables"] ⟨true, "/ns/p", ⟨⟨1, 8, 6⟩⟩⟩ "iptables"
        false [] ⟨none, none, none, none, none, none⟩ ⟨none, "", ""⟩
        (fun s _ => s)).env = ["XTABLES_LOCKFILE=/ns/p"] :=
  (executeXTables_cni_env_exact ["iptables"] ⟨true, "/ns/p", ⟨⟨1, 8, 6⟩⟩⟩
    "iptables" false [] ⟨none, none, none, none, none, none⟩ ⟨none, "", ""⟩
    (fun s _ => s) rfl).trans (by decide)

end IstioDeps
